import Mathlib

/-!
# Verification of `gcp/appengine/frontend_handlers.py`

A shallow embedding of the OSV web-frontend backend handlers: the data
model (`Bug`, its status and affected ranges), the commit-link resolver
(`_commit_to_link`), the query/pagination handler (`query_handler`), the
ecosystems listing (`ecosystems_handler`), the single-record fetch
(`vulnerability_handler`), and the production rate-limit gate
(`check_rate_limit`).

Python strings are embedded as Lean `String`s; where the source performs
character-level operations (`':' in commit`, `commit.split(':')`) we work
on `String.data`, the underlying list of characters, with `pySplit`
mirroring CPython `str.split` with a one-character separator.  Python
truthiness of an optional string (absent or empty both falsy) is
`truthy`.  The datastore (`osv.Bug.query`, `fetch_page`, `get_by_id`) is
embedded as explicit list processing over a list of `Bug` entities; the
external collaborators (`source_mapper.get_vcs_viewer_for_url`,
`osv.get_source_repository`, `osv.source_path`) are parameters gathered
in `Env`.
-/

/-- `osv.BugStatus`: processing status of a vulnerability record. -/
inductive BugStatus where
  | UNPROCESSED
  | PROCESSED
  | INVALID
deriving DecidableEq

/-- `osv.SourceOfTruth`: who owns authoritative edits to a record. -/
inductive SourceOfTruth where
  | INTERNAL
  | EXTERNAL
deriving DecidableEq

/-- One entry of `response['affects']['ranges']` before link enrichment:
type (`"GIT"`, `"SEMVER"`, ...), optional repo URL and optional
`introduced` / `fixed` commit references. -/
structure AffectedRange where
  type : String
  repo : Option String
  introduced : Option String
  fixed : Option String
deriving DecidableEq

/-- The fields of an `osv.Bug` entity that the handlers read.  `ecosystem`
is `none` when the datastore property is unset; `affects_ranges` is the
range list surfaced by `to_vulnerability` (empty when the record has
none, which makes `add_links` a no-op exactly as the `KeyError` early
return does in the source). -/
structure Bug where
  id : String
  status : BugStatus
  public : Bool
  ecosystem : Option String
  search_indices : List String
  has_affected : Bool
  last_modified : Int
  is_fixed : Bool
  source_of_truth : SourceOfTruth
  source : String
  affects_ranges : List AffectedRange
deriving DecidableEq

/-- A VCS viewer returned by `source_mapper.get_vcs_viewer_for_url`:
the capability interface used by `_commit_to_link`. -/
structure VcsViewer where
  get_source_url_for_revision : String → String
  get_source_url_for_revision_diff : String → String → String

/-- A source repository entry (`osv.get_source_repository`); `link` is
`none` when the datastore property is unset. -/
structure SourceRepo where
  link : Option String

/-- The external collaborators of the handlers, passed explicitly. -/
structure Env where
  get_vcs_viewer_for_url : String → Option VcsViewer
  get_source_repository : String → Option SourceRepo
  source_path : SourceRepo → Bug → String

/-- Python truthiness of an optional string: `None` and `''` are falsy. -/
def truthy : Option String → Bool
  | none => false
  | some s => decide (s ≠ "")

/-- CPython `str.split(sep)` for a one-character separator, on the
character list of the string: `''.split(':') == ['']`,
`'a:b'.split(':') == ['a', 'b']`, `'a:b:c'.split(':') == ['a','b','c']`. -/
def pySplit (sep : Char) : List Char → List (List Char)
  | [] => [[]]
  | c :: cs =>
    match pySplit sep cs with
    | [] => [[]]
    | p :: ps => if c = sep then [] :: p :: ps else (c :: p) :: ps

/-- CPython `int(s)` restricted to optionally signed ASCII decimal
numerals after stripping whitespace; every other input raises
`ValueError`, embedded as `none`. -/
def pyInt (s : String) : Option Int :=
  match ((s.data.dropWhile (fun c => c.isWhitespace)).reverse.dropWhile
      (fun c => c.isWhitespace)).reverse with
  | [] => none
  | '+' :: ds =>
    if ds ≠ [] ∧ ds.all (fun c => c.isDigit) then
      some ((ds.foldl (fun n c => 10 * n + (c.toNat - 48)) 0 : Nat) : Int)
    else none
  | '-' :: ds =>
    if ds ≠ [] ∧ ds.all (fun c => c.isDigit) then
      some (-((ds.foldl (fun n c => 10 * n + (c.toNat - 48)) 0 : Nat) : Int))
    else none
  | ds =>
    if ds.all (fun c => c.isDigit) then
      some ((ds.foldl (fun n c => 10 * n + (c.toNat - 48)) 0 : Nat) : Int)
    else none

/-- `_PAGE_SIZE` from the source. -/
def _PAGE_SIZE : Nat := 16

/-- `_REQUESTS_PER_MIN` from the source. -/
def _REQUESTS_PER_MIN : Nat := 30

/-- `_commit_to_link(repo_url, commit)`: resolve a VCS viewer for the
repository URL (no viewer: no link); a reference without `':'` is a
single revision; otherwise split on `':'`, demand exactly two parts,
return no link when the first part is the literal `unknown`, and a
revision-diff URL otherwise. -/
def _commit_to_link (get_vcs : String → Option VcsViewer)
    (repo_url commit : String) : Option String :=
  match get_vcs repo_url with
  | none => none
  | some vcs =>
    if ':' ∉ commit.data then
      some (vcs.get_source_url_for_revision commit)
    else
      match pySplit ':' commit.data with
      | [start, e] =>
        if start = "unknown".data then none
        else some (vcs.get_source_url_for_revision_diff (String.mk start) (String.mk e))
      | _ => none

/-- The commit-link algorithm as §4.3 of the spec words it, for the
refinement statement of claim C2: branch on the NUMBER of separator
characters in the reference (0 separators: single-revision URL; exactly
1: split at it into `(start, end)`, no link for the `unknown` sentinel,
else a range URL; more than 1: no link), with no VCS viewer resolving:
no link. -/
def commit_link_spec (get_vcs : String → Option VcsViewer)
    (repo_url commit : String) : Option String :=
  match get_vcs repo_url with
  | none => none
  | some vcs =>
    let n := commit.data.count ':'
    if n = 0 then some (vcs.get_source_url_for_revision commit)
    else if n = 1 then
      let start := commit.data.takeWhile (fun c => c ≠ ':')
      let e := (commit.data.dropWhile (fun c => c ≠ ':')).tail
      if start = "unknown".data then none
      else some (vcs.get_source_url_for_revision_diff (String.mk start) (String.mk e))
    else none

/-- One enriched entry of `affects.ranges` after `add_links`: the raw
range fields, the ordinal `id` assigned at response-assembly time, and
the derived links (absent keys are `none`). -/
structure RangeResponse where
  type : String
  repo : Option String
  introduced : Option String
  fixed : Option String
  id : Nat
  introduced_link : Option String
  fixed_link : Option String
deriving DecidableEq

/-- The body of the `add_links` loop for the range at index `i`: assign
the ordinal, then only for `GIT`-typed ranges with a truthy repo URL
resolve links for the truthy references. -/
def enrich_range (env : Env) (i : Nat) (a : AffectedRange) : RangeResponse :=
  let base : RangeResponse :=
    { type := a.type, repo := a.repo, introduced := a.introduced,
      fixed := a.fixed, id := i, introduced_link := none, fixed_link := none }
  if a.type ≠ "GIT" then base
  else if ¬ truthy a.repo then base
  else
    { base with
      introduced_link :=
        if truthy a.introduced then
          _commit_to_link env.get_vcs_viewer_for_url (a.repo.getD "") (a.introduced.getD "")
        else none,
      fixed_link :=
        if truthy a.fixed then
          _commit_to_link env.get_vcs_viewer_for_url (a.repo.getD "") (a.fixed.getD "")
        else none }

/-- `add_links`: enumerate the ranges and enrich each. -/
def add_links (env : Env) (ranges : List AffectedRange) : List RangeResponse :=
  (ranges.enum).map (fun p => enrich_range env p.1 p.2)

/-- `add_source_info`: `INTERNAL` records are attributed as internal;
`EXTERNAL` records resolve their source repository, silently producing
nothing when the repository or its link is missing, else the link
concatenated with the source path (the source stores the same string
under both `source` and `source_link`). -/
def add_source_info (env : Env) (bug : Bug) : Option String :=
  match bug.source_of_truth with
  | SourceOfTruth.INTERNAL => some "INTERNAL"
  | SourceOfTruth.EXTERNAL =>
    match env.get_source_repository bug.source with
    | none => none
    | some source_repo =>
      if ¬ truthy source_repo.link then none
      else some ((source_repo.link.getD "") ++ env.source_path source_repo bug)

/-- The response object built by `bug_to_response`: the serialized
vulnerability (carried as the `Bug` itself), the `isFixed` and `invalid`
keys, and — only for detailed responses — the enriched ranges and the
source attribution. -/
structure BugResponse where
  vuln : Bug
  is_fixed : Bool
  invalid : Bool
  enriched_ranges : Option (List RangeResponse)
  source : Option String
deriving DecidableEq

/-- `bug_to_response(bug, detailed)`: always sets `isFixed` and
`invalid` (`invalid` is true exactly for `INVALID` status); a detailed
response additionally runs `add_links` and `add_source_info`. -/
def bug_to_response (env : Env) (bug : Bug) (detailed : Bool) : BugResponse :=
  if detailed then
    { vuln := bug, is_fixed := bug.is_fixed,
      invalid := decide (bug.status = BugStatus.INVALID),
      enriched_ranges := some (add_links env bug.affects_ranges),
      source := add_source_info env bug }
  else
    { vuln := bug, is_fixed := bug.is_fixed,
      invalid := decide (bug.status = BugStatus.INVALID),
      enriched_ranges := none,
      source := none }

/-- Outcome of a Flask handler: a JSON body, an `abort(code)`, or an
uncaught Python exception (served as an internal server error). -/
inductive Outcome (α : Type) where
  | ok (val : α)
  | httpError (code : Nat)
  | pyError (msg : String)
deriving DecidableEq

/-- The raw query-string arguments of `/backend/query`
(`request.args.get(...)`: `none` when the parameter is absent). -/
structure QueryArgs where
  search : Option String
  page : Option String
  affected_only : Option String
  ecosystem : Option String
deriving DecidableEq

/-- `int(request.args.get('page', 1))`: the absent parameter defaults to
the integer 1; a present parameter goes through `int()`. -/
def page_arg (args : QueryArgs) : Option Int :=
  match args.page with
  | none => some 1
  | some s => pyInt s

/-- The filter predicate `query_handler` builds: always
`status == PROCESSED AND public == True`; a truthy search string adds
`search_indices == search_string.lower()` (membership in the repeated
property); `affected_only` adds `has_affected == True`; a truthy
ecosystem adds `ecosystem == <value>`. -/
def query_pred (search_string : Option String) (affected_only : Bool)
    (ecosystem : Option String) (bug : Bug) : Bool :=
  (decide (bug.status = BugStatus.PROCESSED) && bug.public)
  && (!truthy search_string
      || decide ((search_string.getD "").toLower ∈ bug.search_indices))
  && (!affected_only || bug.has_affected)
  && (!truthy ecosystem || decide (bug.ecosystem = ecosystem))

/-- Descending `last_modified`, the order `query.order(-osv.Bug.last_modified)`
applies (stable under the sort used below, so determinism across pages holds). -/
def byLastModified (a b : Bug) : Prop :=
  b.last_modified ≤ a.last_modified

instance : DecidableRel byLastModified := fun a b =>
  inferInstanceAs (Decidable (b.last_modified ≤ a.last_modified))

instance : IsTotal Bug byLastModified :=
  ⟨fun a b => le_total b.last_modified a.last_modified⟩

instance : IsTrans Bug byLastModified :=
  ⟨fun _ _ _ hab hbc => le_trans hbc hab⟩

/-- The `{total, items}` JSON body of `/backend/query`. -/
structure QueryResults where
  total : Nat
  items : List BugResponse
deriving DecidableEq

/-- `query_handler`: parse the page (a non-numeric value raises
`ValueError`, uncaught), build the base predicate plus the optional
filters, order by descending `last_modified`, `total := query.count()`,
and fetch the page of `_PAGE_SIZE` records at offset
`(page - 1) * _PAGE_SIZE` (the datastore client rejects a negative
offset, an uncaught exception); items use the non-detailed projection. -/
def query_handler (env : Env) (db : List Bug) (args : QueryArgs) :
    Outcome QueryResults :=
  match page_arg args with
  | none => Outcome.pyError "ValueError"
  | some page =>
    let affected_only := decide (args.affected_only = some "true")
    let filtered := db.filter (query_pred args.search affected_only args.ecosystem)
    let total := filtered.length
    let ordered := List.insertionSort byLastModified filtered
    let offset : Int := (page - 1) * (_PAGE_SIZE : Int)
    if offset < 0 then Outcome.pyError "BadValueError"
    else
      Outcome.ok
        { total := total,
          items := ((ordered.drop offset.toNat).take _PAGE_SIZE).map
            (fun b => bug_to_response env b false) }

/-- `ecosystems_handler`: a distinct projection of `Bug.ecosystem` over
the WHOLE `Bug` kind (no status or visibility filter in the source),
then `sorted([... if bug.ecosystem])` — drop falsy values and sort
ascending. -/
def ecosystems_handler (db : List Bug) : List String :=
  let distinct_values := (db.filterMap (fun bug => bug.ecosystem)).dedup
  List.insertionSort (fun a b : String => a ≤ b)
    (distinct_values.filter (fun e => decide (e ≠ "")))

/-- `listEcosystems()` as the spec words it, for claim C4: the distinct
non-empty ecosystem values over PROCESSED records, sorted ascending. -/
def listEcosystems_spec (db : List Bug) : List String :=
  let processed := db.filter (fun bug => decide (bug.status = BugStatus.PROCESSED))
  List.insertionSort (fun a b : String => a ≤ b)
    (((processed.filterMap (fun bug => bug.ecosystem)).dedup).filter
      (fun e => decide (e ≠ "")))

/-- `osv.Bug.get_by_id`: key lookup in the embedded store. -/
def get_by_id (db : List Bug) (vuln_id : String) : Option Bug :=
  db.find? (fun bug => decide (bug.id = vuln_id))

/-- `vulnerability_handler`: 400 for a falsy `id` parameter, 404 when no
record has the id, 404 for `UNPROCESSED` status, 403 for a non-public
record, else the detailed response — checks in exactly that order. -/
def vulnerability_handler (env : Env) (db : List Bug) (arg_id : Option String) :
    Outcome BugResponse :=
  if ¬ truthy arg_id then Outcome.httpError 400
  else
    match get_by_id db (arg_id.getD "") with
    | none => Outcome.httpError 404
    | some bug =>
      if bug.status = BugStatus.UNPROCESSED then Outcome.httpError 404
      else if ¬ bug.public then Outcome.httpError 403
      else Outcome.ok (bug_to_response env bug true)

/-- `check_rate_limit` (the `before_request` hook registered in
production): read the client IP from the `X-Appengine-User-Ip` header,
defaulting to the shared literal `unknown`, and `abort(429)` when
`limiter.check_request` refuses it (`some 429`); `none` lets the
request continue. -/
def check_rate_limit (check_request : String → Bool)
    (forwarded_ip : Option String) : Option Nat :=
  let ip_addr := forwarded_ip.getD "unknown"
  if ¬ check_request ip_addr then some 429 else none

/-- Result of dispatching one request through the gate. -/
inductive GateResult (α : Type) where
  | aborted (code : Nat)
  | handled (val : α)
deriving DecidableEq

/-- One request through the frontend: in production the rate-limit hook
runs before any handler, and an abort terminates the request without
invoking the handler at all. -/
def handle_request {α : Type} (is_prod : Bool) (check_request : String → Bool)
    (forwarded_ip : Option String) (handler : Unit → α) : GateResult α :=
  if is_prod then
    match check_rate_limit check_request forwarded_ip with
    | some code => GateResult.aborted code
    | none => GateResult.handled (handler ())
  else GateResult.handled (handler ())

/-- Modelled from the spec: the `rate_limiter.RateLimiter` component and
its counting backend are not among this repository's source files (only
`frontend_handlers.py` is); the spec says `checkRequest` atomically
increments the per-client window counter on the shared backend
(`incrementAndGet`) and admits the request exactly when the resulting
count is at most the budget, and a rejected request still consumes
budget.  By that atomicity, an execution of concurrently issued
requests for one client within one window is a serialization: a list of
request labels in backend-arrival order.  `run_window budget count reqs`
plays the remaining requests against a counter currently at `count`,
pairing each label with its admission verdict. -/
def run_window {α : Type} (budget : Nat) : Nat → List α → List (α × Bool)
  | _, [] => []
  | count, a :: rest =>
    (a, decide (count + 1 ≤ budget)) :: run_window budget (count + 1) rest

/-- A fixed concrete environment for witnesses: no VCS resolves, no
source repository resolves. -/
def env0 : Env :=
  { get_vcs_viewer_for_url := fun _ => none,
    get_source_repository := fun _ => none,
    source_path := fun _ _ => "" }

/-- A processed public record, for witnesses. -/
def bug1 : Bug :=
  { id := "OSV-2021-1", status := BugStatus.PROCESSED, public := true,
    ecosystem := some "PyPI", search_indices := ["osv"], has_affected := true,
    last_modified := 5, is_fixed := true,
    source_of_truth := SourceOfTruth.INTERNAL, source := "",
    affects_ranges := [] }

/-- An unprocessed record carrying an ecosystem, for the C4 counterexample. -/
def bugU : Bug :=
  { id := "OSV-2021-2", status := BugStatus.UNPROCESSED, public := true,
    ecosystem := some "npm", search_indices := [], has_affected := false,
    last_modified := 3, is_fixed := false,
    source_of_truth := SourceOfTruth.INTERNAL, source := "",
    affects_ranges := [] }

/-- A public record with INVALID status, for the C9 witness. -/
def bugI : Bug :=
  { id := "OSV-2021-3", status := BugStatus.INVALID, public := true,
    ecosystem := none, search_indices := [], has_affected := false,
    last_modified := 7, is_fixed := false,
    source_of_truth := SourceOfTruth.INTERNAL, source := "",
    affects_ranges := [] }

/-- The empty query-string, for witnesses. -/
def args0 : QueryArgs :=
  { search := none, page := none, affected_only := none, ecosystem := none }

/-! ## Lemmas about `pySplit` -/

theorem pySplit_ne_nil (sep : Char) (l : List Char) : pySplit sep l ≠ [] := by
  cases l with
  | nil => simp [pySplit]
  | cons c cs =>
    simp only [pySplit]
    cases h : pySplit sep cs with
    | nil => simp
    | cons p ps =>
      by_cases hc : c = sep <;> simp [hc]

theorem length_pySplit (sep : Char) (l : List Char) :
    (pySplit sep l).length = l.count sep + 1 := by
  induction l with
  | nil => simp [pySplit]
  | cons c cs ih =>
    cases h : pySplit sep cs with
    | nil => exact absurd h (pySplit_ne_nil sep cs)
    | cons p ps =>
      rw [h] at ih
      by_cases hc : c = sep
      · subst hc
        simp [pySplit, h, List.count_cons]
        simp at ih
        omega
      · simp [pySplit, h, hc, List.count_cons, Ne.symm hc]
        simp at ih
        omega

theorem pySplit_of_not_mem (sep : Char) (l : List Char) (h : sep ∉ l) :
    pySplit sep l = [l] := by
  induction l with
  | nil => simp [pySplit]
  | cons c cs ih =>
    have hc : c ≠ sep := fun hh => h (hh ▸ List.mem_cons_self c cs)
    have hcs : sep ∉ cs := fun hh => h (List.mem_cons_of_mem c hh)
    simp only [pySplit, ih hcs, if_neg hc]

theorem pySplit_of_count_one (sep : Char) (l : List Char) (h : l.count sep = 1) :
    pySplit sep l =
      [l.takeWhile (fun c => c ≠ sep), (l.dropWhile (fun c => c ≠ sep)).tail] := by
  induction l with
  | nil => simp at h
  | cons c cs ih =>
    by_cases hc : c = sep
    · subst hc
      have hcount : cs.count c = 0 := by
        simp [List.count_cons] at h
        omega
      have hnm : c ∉ cs := List.count_eq_zero.mp hcount
      simp only [pySplit, pySplit_of_not_mem c cs hnm, if_pos rfl]
      simp [List.takeWhile, List.dropWhile]
    · have hcs : cs.count sep = 1 := by
        simp [List.count_cons, hc, Ne.symm hc] at h
        exact h
      simp only [pySplit, ih hcs]
      rw [if_neg hc]
      have hc2 : (decide (c ≠ sep)) = true := by simp [hc]
      simp [List.takeWhile, List.dropWhile, hc2]

/-- C2: For every repository URL and commit-reference string,
`_commit_to_link` returns no link when no VCS backend resolves for the
URL; the backend's single-revision URL when the reference contains no
`':'` separator; no link when the reference contains more than one
separator; no link when it contains exactly one separator and the part
before it is the literal `"unknown"`; and otherwise the backend's
revision-range (diff) URL for the `(start, end)` pair — that is, it
coincides with `commit_link_spec`, the case analysis on the number of
separators exactly as worded in the spec. -/
theorem commit_to_link_matches_spec (get_vcs : String → Option VcsViewer)
    (repo_url commit : String) :
    _commit_to_link get_vcs repo_url commit =
      commit_link_spec get_vcs repo_url commit := by
  unfold _commit_to_link commit_link_spec
  cases hgv : get_vcs repo_url with
  | none => rfl
  | some vcs =>
    simp only
    by_cases hmem : ':' ∈ commit.data
    · rw [if_neg (by simpa using hmem)]
      rcases hn : commit.data.count ':' with _ | n
      · exact absurd hmem (List.count_eq_zero.mp hn)
      · cases n with
        | zero =>
          rw [pySplit_of_count_one ':' commit.data hn]
          norm_num
        | succ m =>
          have hlen : (pySplit ':' commit.data).length = m + 3 := by
            rw [length_pySplit, hn]
          rcases hsp : pySplit ':' commit.data with _ | ⟨a, _ | ⟨b, _ | ⟨c, rest⟩⟩⟩ <;>
            rw [hsp] at hlen <;> simp at hlen
          norm_num
    · have h0 : commit.data.count ':' = 0 := List.count_eq_zero.mpr hmem
      rw [if_pos hmem, h0]
      norm_num

/-! ## Lemmas about `query_handler` -/

/-- When the page parses, `query_handler` returns the counted total and
the page slice of the ordered, filtered store. -/
theorem query_handler_ok (env : Env) (db : List Bug) (args : QueryArgs)
    (page : Int) (hpage : page_arg args = some page) (h1 : 1 ≤ page) :
    query_handler env db args =
      Outcome.ok
        { total := (db.filter (query_pred args.search
            (decide (args.affected_only = some "true")) args.ecosystem)).length,
          items := (((List.insertionSort byLastModified
              (db.filter (query_pred args.search
                (decide (args.affected_only = some "true")) args.ecosystem))).drop
                ((page - 1) * (_PAGE_SIZE : Int)).toNat).take _PAGE_SIZE).map
            (fun b => bug_to_response env b false) } := by
  have hoff : ¬ ((page - 1) * (_PAGE_SIZE : Int) < 0) := by
    simp only [_PAGE_SIZE]
    push_cast
    omega
  unfold query_handler
  rw [hpage]
  simp only [if_neg hoff]

/-- C1: every item of a successful `/backend/query` response satisfies
the base predicate: its record has `status == PROCESSED` and
`public == true` — records failing either are never among the items,
whatever the optional filters were. -/
theorem query_items_processed_and_public (env : Env) (db : List Bug)
    (args : QueryArgs) (r : QueryResults)
    (h : query_handler env db args = Outcome.ok r) :
    r.items.all (fun resp =>
      decide (resp.vuln.status = BugStatus.PROCESSED) && resp.vuln.public) = true := by
  unfold query_handler at h
  cases hp : page_arg args with
  | none => rw [hp] at h; simp at h
  | some page =>
    rw [hp] at h
    by_cases hoff : ((page - 1) * (_PAGE_SIZE : Int) < 0)
    · simp only [if_pos hoff] at h
      simp at h
    · simp only [if_neg hoff] at h
      simp only [Outcome.ok.injEq] at h
      rw [← h]
      rw [List.all_eq_true]
      intro resp hresp
      simp only [List.mem_map] at hresp
      obtain ⟨b, hb, rfl⟩ := hresp
      have hb2 : b ∈ List.insertionSort byLastModified
          (db.filter (query_pred args.search
            (decide (args.affected_only = some "true")) args.ecosystem)) :=
        ((List.take_sublist _ _).trans (List.drop_sublist _ _)).subset hb
      have hb3 := (List.perm_insertionSort byLastModified _).mem_iff.mp hb2
      have hpred := (List.mem_filter.mp hb3).2
      unfold query_pred at hpred
      simp only [Bool.and_eq_true] at hpred
      simp only [bug_to_response, if_neg (by simp : ¬ false = true)]
      rw [Bool.and_eq_true]
      exact ⟨hpred.1.1.1.1, hpred.1.1.1.2⟩

/-- C1 witness: a one-record store with a processed public record. -/
theorem query_items_processed_and_public_witness :
    (QueryResults.mk 1 [bug_to_response env0 bug1 false]).items.all
      (fun resp =>
        decide (resp.vuln.status = BugStatus.PROCESSED) && resp.vuln.public) = true :=
  query_items_processed_and_public env0 [bug1] args0
    (QueryResults.mk 1 [bug_to_response env0 bug1 false]) (by decide)

/-- C3: for a query whose page parses to `page ≥ 1`, `query_handler`
succeeds with: `total` equal to the count of records matching the filter
predicate (the same predicate the page fetch uses — every fetched item
satisfies it), at most `_PAGE_SIZE` items, namely
`min _PAGE_SIZE (total - offset)` items at offset
`(page - 1) * _PAGE_SIZE`, zero items (not an error) when the offset
reaches the total, and items ordered by descending `last_modified`. -/
theorem query_handler_paginates (env : Env) (db : List Bug) (args : QueryArgs)
    (page : Int) (hpage : page_arg args = some page) (h1 : 1 ≤ page) :
    ∃ r, query_handler env db args = Outcome.ok r ∧
      r.total = List.countP (query_pred args.search
        (decide (args.affected_only = some "true")) args.ecosystem) db ∧
      r.items.length = min _PAGE_SIZE (r.total - (page - 1).toNat * _PAGE_SIZE) ∧
      (r.total ≤ (page - 1).toNat * _PAGE_SIZE → r.items = []) ∧
      List.Sorted (fun x y : BugResponse =>
        y.vuln.last_modified ≤ x.vuln.last_modified) r.items ∧
      ∀ resp ∈ r.items, query_pred args.search
        (decide (args.affected_only = some "true")) args.ecosystem resp.vuln = true := by
  have key := query_handler_ok env db args page hpage h1
  have hperm := List.perm_insertionSort byLastModified
    (db.filter (query_pred args.search
      (decide (args.affected_only = some "true")) args.ecosystem))
  have htn : ((page - 1) * (_PAGE_SIZE : Int)).toNat = (page - 1).toNat * _PAGE_SIZE := by
    simp only [_PAGE_SIZE]
    push_cast
    omega
  refine ⟨_, key, ?_, ?_, ?_, ?_, ?_⟩
  · exact (List.countP_eq_length_filter _ db).symm
  · simp only [List.length_map, List.length_take, List.length_drop,
      hperm.length_eq, htn]
    try omega
  · intro hle
    have hnil : (List.insertionSort byLastModified
        (db.filter (query_pred args.search
          (decide (args.affected_only = some "true")) args.ecosystem))).drop
        ((page - 1) * (_PAGE_SIZE : Int)).toNat = [] := by
      apply List.drop_eq_nil_of_le
      rw [hperm.length_eq, htn]
      exact hle
    simp only at hle ⊢
    rw [hnil]
    simp
  · have hsorted := List.sorted_insertionSort byLastModified
      (db.filter (query_pred args.search
        (decide (args.affected_only = some "true")) args.ecosystem))
    have hpage_sorted : List.Sorted byLastModified
        (((List.insertionSort byLastModified
          (db.filter (query_pred args.search
            (decide (args.affected_only = some "true")) args.ecosystem))).drop
            ((page - 1) * (_PAGE_SIZE : Int)).toNat).take _PAGE_SIZE) :=
      List.Pairwise.sublist
        ((List.take_sublist _ _).trans (List.drop_sublist _ _)) hsorted
    simp only [List.Sorted, List.pairwise_map]
    exact hpage_sorted.imp (fun {a b} hab => by
      simpa [bug_to_response] using hab)
  · intro resp hresp
    simp only [List.mem_map] at hresp
    obtain ⟨b, hb, rfl⟩ := hresp
    have hb2 : b ∈ List.insertionSort byLastModified
        (db.filter (query_pred args.search
          (decide (args.affected_only = some "true")) args.ecosystem)) :=
      ((List.take_sublist _ _).trans (List.drop_sublist _ _)).subset hb
    have hb3 := (List.perm_insertionSort byLastModified _).mem_iff.mp hb2
    have hpred := (List.mem_filter.mp hb3).2
    simpa [bug_to_response] using hpred

/-- C3 witness: the default query against a one-record store, page 1. -/
theorem query_handler_paginates_witness :
    ∃ r, query_handler env0 [bug1] args0 = Outcome.ok r ∧
      r.total = List.countP (query_pred args0.search
        (decide (args0.affected_only = some "true")) args0.ecosystem) [bug1] ∧
      r.items.length = min _PAGE_SIZE (r.total - ((1 : Int) - 1).toNat * _PAGE_SIZE) ∧
      (r.total ≤ ((1 : Int) - 1).toNat * _PAGE_SIZE → r.items = []) ∧
      List.Sorted (fun x y : BugResponse =>
        y.vuln.last_modified ≤ x.vuln.last_modified) r.items ∧
      ∀ resp ∈ r.items, query_pred args0.search
        (decide (args0.affected_only = some "true")) args0.ecosystem resp.vuln = true :=
  query_handler_paginates env0 [bug1] args0 1 rfl (by norm_num)

/-- C4 counterexample: a store holding one UNPROCESSED record with
ecosystem `npm`.  The handler lists `npm`, although no PROCESSED record
carries any ecosystem, so the claim's "over PROCESSED records only" is
false of the code (the source applies no status filter). -/
theorem ecosystems_handler_counterexample :
    ecosystems_handler [bugU] = ["npm"] ∧ listEcosystems_spec [bugU] = [] ∧
    ecosystems_handler [bugU] ≠ listEcosystems_spec [bugU] := by
  refine ⟨by decide, by decide, by decide⟩

/-- C4 (amended): `/backend/ecosystems` returns the distinct non-empty
`ecosystem` values of ALL records — regardless of status or visibility —
sorted ascending and without duplicates. -/
theorem ecosystems_handler_all_records (db : List Bug) :
    List.Sorted (fun a b : String => a ≤ b) (ecosystems_handler db) ∧
    (ecosystems_handler db).Nodup ∧
    ∀ s, s ∈ ecosystems_handler db ↔
      (s ≠ "" ∧ ∃ bug ∈ db, bug.ecosystem = some s) := by
  unfold ecosystems_handler
  have hperm := List.perm_insertionSort (fun a b : String => a ≤ b)
    (((db.filterMap (fun bug => bug.ecosystem)).dedup).filter
      (fun e => decide (e ≠ "")))
  refine ⟨List.sorted_insertionSort _ _, ?_, ?_⟩
  · exact hperm.nodup_iff.mpr (((db.filterMap
      (fun bug => bug.ecosystem)).nodup_dedup).filter _)
  · intro s
    rw [hperm.mem_iff, List.mem_filter, List.mem_dedup, List.mem_filterMap]
    constructor
    · rintro ⟨⟨bug, hbug, hsome⟩, hne⟩
      exact ⟨by simpa using hne, bug, hbug, hsome⟩
    · rintro ⟨hne, bug, hbug, hsome⟩
      exact ⟨⟨bug, hbug, hsome⟩, by simpa using hne⟩

/-- C5 counterexample: a non-numeric page (`page=abc`) makes
`query_handler` raise an uncaught `ValueError` — an internal server
error, not the claimed HTTP 400 — and `page=0` is not rejected with 400
either (the negative offset flows to the store fetch). -/
theorem query_malformed_page_counterexample :
    query_handler env0 [] (QueryArgs.mk none (some "abc") none none) =
      Outcome.pyError "ValueError" ∧
    query_handler env0 [] (QueryArgs.mk none (some "abc") none none) ≠
      Outcome.httpError 400 ∧
    query_handler env0 [] (QueryArgs.mk none (some "0") none none) ≠
      Outcome.httpError 400 := by
  refine ⟨by decide, by decide, by decide⟩

/-- C5 (amended): a `/backend/query` request whose page parameter is
non-numeric fails with an uncaught `ValueError` (HTTP 500, not a 400
client error) before any store access; a numeric page below 1 is not
rejected by the handler at all — the negative offset is handed to the
store fetch, whose rejection is likewise an uncaught exception, not a
400.  In neither case is the value clamped or coerced. -/
theorem query_page_errors (env : Env) (db : List Bug) (args : QueryArgs) :
    (∀ s, args.page = some s → pyInt s = none →
      query_handler env db args = Outcome.pyError "ValueError") ∧
    (∀ page : Int, page_arg args = some page → page < 1 →
      query_handler env db args = Outcome.pyError "BadValueError") := by
  constructor
  · intro s hs hnone
    have hpage : page_arg args = none := by
      unfold page_arg
      rw [hs]
      exact hnone
    unfold query_handler
    rw [hpage]
  · intro page hp hlt
    have hoff : ((page - 1) * (_PAGE_SIZE : Int) < 0) := by
      simp only [_PAGE_SIZE]
      push_cast
      omega
    unfold query_handler
    rw [hp]
    simp only [if_pos hoff]

/-- C6: the `/backend/vulnerability` cascade, checks in source order: an
absent `id` parameter is a 400; with a (non-empty) id present, an
unknown id is a 404; a known record with UNPROCESSED status is a 404
regardless of visibility; a known, non-UNPROCESSED but non-public record
is a 403; and a known, non-UNPROCESSED, public record yields the
detailed response. -/
theorem vulnerability_handler_outcomes (env : Env) (db : List Bug)
    (arg_id : Option String) :
    (arg_id = none → vulnerability_handler env db arg_id = Outcome.httpError 400) ∧
    (∀ vid, arg_id = some vid → vid ≠ "" →
      (get_by_id db vid = none →
        vulnerability_handler env db arg_id = Outcome.httpError 404) ∧
      (∀ bug, get_by_id db vid = some bug →
        (bug.status = BugStatus.UNPROCESSED →
          vulnerability_handler env db arg_id = Outcome.httpError 404) ∧
        (bug.status ≠ BugStatus.UNPROCESSED → bug.public = false →
          vulnerability_handler env db arg_id = Outcome.httpError 403) ∧
        (bug.status ≠ BugStatus.UNPROCESSED → bug.public = true →
          vulnerability_handler env db arg_id =
            Outcome.ok (bug_to_response env bug true)))) := by
  constructor
  · rintro rfl
    rfl
  · rintro vid rfl hne
    constructor
    · intro hnone
      simp [vulnerability_handler, truthy, hne, hnone]
    · intro bug hsome
      refine ⟨?_, ?_, ?_⟩
      · intro hstat
        simp [vulnerability_handler, truthy, hne, hsome, hstat]
      · intro hstat hpub
        simp [vulnerability_handler, truthy, hne, hsome, hstat, hpub]
      · intro hstat hpub
        simp [vulnerability_handler, truthy, hne, hsome, hstat, hpub]

/-! ## Lemmas decomposing the optional query filters -/

theorem search_clause_iff (o : Option String) (bug : Bug) :
    ((!truthy o
      || decide ((o.getD "").toLower ∈ bug.search_indices)) = true) ↔
    (∀ s, o = some s → s ≠ "" → s.toLower ∈ bug.search_indices) := by
  cases o with
  | none => simp [truthy]
  | some s =>
    by_cases hs : s = ""
    · subst hs
      simp [truthy]
    · simp [truthy, hs]

theorem eco_clause_iff (o : Option String) (bug : Bug) :
    ((!truthy o || decide (bug.ecosystem = o)) = true) ↔
    (∀ e, o = some e → e ≠ "" → bug.ecosystem = some e) := by
  cases o with
  | none => simp [truthy]
  | some e =>
    by_cases he : e = ""
    · subst he
      simp [truthy]
    · simp [truthy, he]

theorem affected_clause_iff (affected_only : Bool) (bug : Bug) :
    ((!affected_only || bug.has_affected) = true) ↔
    (affected_only = true → bug.has_affected = true) := by
  cases affected_only <;> simp

/-- C7: the composed filter predicate of `query_handler` holds of a
record exactly when the base predicate holds and each PRESENT optional
filter holds: a present non-empty search token must, lower-cased, be
among the record's `search_indices`; `affected_only` demands
`has_affected`; a present non-empty ecosystem must match exactly.  An
absent or empty filter imposes nothing (and is no error: the predicate
is total). -/
theorem query_pred_composes (search_string ecosystem : Option String)
    (affected_only : Bool) (bug : Bug) :
    query_pred search_string affected_only ecosystem bug = true ↔
      (bug.status = BugStatus.PROCESSED ∧ bug.public = true ∧
       (∀ s, search_string = some s → s ≠ "" →
         s.toLower ∈ bug.search_indices) ∧
       (affected_only = true → bug.has_affected = true) ∧
       (∀ e, ecosystem = some e → e ≠ "" → bug.ecosystem = some e)) := by
  unfold query_pred
  simp only [Bool.and_eq_true]
  rw [search_clause_iff, eco_clause_iff, affected_clause_iff]
  simp only [Bool.and_eq_true, decide_eq_true_eq]
  tauto

/-- C8: in the production deployment mode the rate-limit hook gates every
request: the client identifier is the trusted forwarded-IP header value,
defaulting to the shared literal `unknown` when the header is absent, and
when `check_request` refuses that identifier the request terminates with
HTTP 429 — whatever the handler would have been, it never runs. -/
theorem prod_rate_limit_gate {α : Type} (check_request : String → Bool)
    (forwarded_ip : Option String)
    (hfail : check_request (forwarded_ip.getD "unknown") = false) :
    ∀ handler : Unit → α,
      handle_request true check_request forwarded_ip handler =
        GateResult.aborted 429 := by
  intro handler
  simp [handle_request, check_rate_limit, hfail]

/-- C8 witness: header absent, limiter refusing the `unknown` bucket. -/
theorem prod_rate_limit_gate_witness :
    handle_request true (fun _ => false) none (fun _ => (0 : Nat)) =
      GateResult.aborted 429 :=
  prod_rate_limit_gate (fun _ => false) none rfl (fun _ => (0 : Nat))

/-- C9: a record that exists, is public, and has INVALID status — neither
PROCESSED nor UNPROCESSED — is served by the single-record fetch as the
full detailed response (no 404: only UNPROCESSED is rejected), and the
`invalid` field of that response is true. -/
theorem invalid_record_detail (env : Env) (db : List Bug) (vid : String)
    (bug : Bug) (hvid : vid ≠ "") (hfind : get_by_id db vid = some bug)
    (hpub : bug.public = true) (hinv : bug.status = BugStatus.INVALID) :
    vulnerability_handler env db (some vid) =
      Outcome.ok (bug_to_response env bug true) ∧
    (bug_to_response env bug true).invalid = true := by
  constructor
  · have hstat : bug.status ≠ BugStatus.UNPROCESSED := by
      rw [hinv]
      intro h
      cases h
    simp [vulnerability_handler, truthy, hvid, hfind, hstat, hpub]
  · simp [bug_to_response, hinv]

/-- C9 witness: the concrete INVALID public record `bugI`. -/
theorem invalid_record_detail_witness :
    vulnerability_handler env0 [bugI] (some "OSV-2021-3") =
      Outcome.ok (bug_to_response env0 bugI true) ∧
    (bug_to_response env0 bugI true).invalid = true :=
  invalid_record_detail env0 [bugI] "OSV-2021-3" bugI (by decide) (by decide)
    rfl rfl

/-! ## Lemmas about the modelled rate-limit window -/

theorem run_window_admitted_count {α : Type} (budget : Nat) (σ : List α) :
    ∀ count, (run_window budget count σ).countP (fun p => p.2) =
      min σ.length (budget - count) := by
  induction σ with
  | nil => intro count; simp [run_window]
  | cons a rest ih =>
    intro count
    simp only [run_window, List.countP_cons, ih (count + 1), List.length_cons]
    by_cases h : count + 1 ≤ budget <;> simp [h] <;> omega

theorem run_window_rejected_count {α : Type} (budget : Nat) (σ : List α) :
    ∀ count, (run_window budget count σ).countP (fun p => !p.2) =
      σ.length - min σ.length (budget - count) := by
  induction σ with
  | nil => intro count; simp [run_window]
  | cons a rest ih =>
    intro count
    simp only [run_window, List.countP_cons, ih (count + 1), List.length_cons]
    by_cases h : count + 1 ≤ budget <;> simp [h] <;> omega

/-- C10 (modelled from the spec, the rate-limiter module being outside
this repository's files): with an atomic increment-and-compare on the
shared counter, any concurrent execution of `budget + k` requests for
one client in one window is a serialization, i.e. SOME arrival order
`σ` of the `budget + k` request labels; whatever that order, exactly
`budget` requests are admitted and exactly `k` rejected. -/
theorem rate_limiter_admits_exactly_budget {α : Type} (σ : List α)
    (budget k : Nat) (h : σ.length = budget + k) :
    (run_window budget 0 σ).countP (fun p => p.2) = budget ∧
    (run_window budget 0 σ).countP (fun p => !p.2) = k := by
  constructor
  · rw [run_window_admitted_count budget σ 0]
    omega
  · rw [run_window_rejected_count budget σ 0]
    omega

/-- C10 witness: budget 2, three concurrent requests in one order. -/
theorem rate_limiter_admits_exactly_budget_witness :
    (run_window 2 0 ([0, 1, 2] : List Nat)).countP (fun p => p.2) = 2 ∧
    (run_window 2 0 ([0, 1, 2] : List Nat)).countP (fun p => !p.2) = 1 :=
  rate_limiter_admits_exactly_budget ([0, 1, 2] : List Nat) 2 1 rfl
